import Mathlib

/-!
Shallow embedding of src/performance_monitor.py.

Python floats are modelled as rationals.  Calls to time.time() and
datetime.now() are modelled by explicit rational-valued time arguments, and
psutil.Process().memory_info().rss by an explicit rss argument.  Terminal
prints and file writes are modelled as an explicit list of emitted events;
filesystem faults are modelled by a boolean fsOk oracle passed to the file
primitives, which return Except when they fail.
-/

/-- Python collections.deque with a maxlen bound: an ordered buffer of
rationals, oldest first. -/
structure Deque where
  maxlen : Nat
  data : List ℚ
deriving Repr, DecidableEq

/-- deque.append for a maxlen-bounded deque: appends on the right and, when
the deque is full, discards from the left.  On states satisfying the deque
invariant (length at most maxlen) the drop amount is 0 or 1. -/
def Deque.append (d : Deque) (x : ℚ) : Deque :=
  ⟨d.maxlen, (d.data ++ [x]).drop (d.data.length + 1 - d.maxlen)⟩

/-- deque.clear. -/
def Deque.clear (d : Deque) : Deque :=
  ⟨d.maxlen, []⟩

/-- deque(maxlen=n): the freshly constructed empty deque. -/
def Deque.empty (maxlen : Nat) : Deque :=
  ⟨maxlen, []⟩

/-- Python sum over the elements of a deque. -/
def pySum (l : List ℚ) : ℚ :=
  l.sum

/-- Python min over the elements of a deque; the source only calls it on a
nonempty deque (guarded by a length check), so the empty case is junk. -/
def pyMin : List ℚ → ℚ
  | [] => 0
  | x :: xs => xs.foldl min x

/-- Python max over the elements of a deque; same guard remark as pyMin. -/
def pyMax : List ℚ → ℚ
  | [] => 0
  | x :: xs => xs.foldl max x

/-- The metrics dictionary built by get_metrics. -/
structure Metrics where
  fps : ℚ
  avg_latency_ms : ℚ
  min_latency_ms : ℚ
  max_latency_ms : ℚ
  memory_mb : ℚ
  timestamp : ℚ
deriving Repr, DecidableEq

/-- Observable output of the monitor: terminal prints and log-file writes. -/
inductive Event where
  | fileCreate
  | terminalPrint (m : Metrics)
  | csvWrite (m : Metrics)
  | ioWarning
  | resetNotice
deriving Repr, DecidableEq

/-- The mutable state of a PerformanceMonitor instance. -/
structure PerformanceMonitor where
  frame_times : Deque
  last_frame_time : Option ℚ
  latencies : Deque
  frame_start_time : Option ℚ
  memory_samples : Deque
  terminal_interval : ℚ
  last_terminal_print : ℚ
  log_to_file : Bool
deriving Repr, DecidableEq

/-- A raw open-and-write on the log file: fails (raises) when the
filesystem faults, modelled by fsOk = false. -/
def pyFileWrite (fsOk : Bool) : Except String Unit :=
  if fsOk then Except.ok () else Except.error "disk fault"

/-- PerformanceMonitor._init_log_file: writes the CSV header when
log_to_file is set, catching any exception and printing an error. -/
def PerformanceMonitor._init_log_file (fsOk : Bool) (st : PerformanceMonitor) : List Event :=
  if st.log_to_file then
    match pyFileWrite fsOk with
    | Except.ok _ => [Event.fileCreate]
    | Except.error _ => [Event.ioWarning]
  else []

/-- PerformanceMonitor.__init__: fresh windows, unset timers, the current
time as last_terminal_print, and the log-file header write. -/
def PerformanceMonitor.init (window_size : Nat) (log_to_file : Bool)
    (terminal_interval : ℚ) (now : ℚ) (fsOk : Bool) :
    PerformanceMonitor × List Event :=
  let st : PerformanceMonitor :=
    { frame_times := Deque.empty window_size
      last_frame_time := none
      latencies := Deque.empty window_size
      frame_start_time := none
      memory_samples := Deque.empty window_size
      terminal_interval := terminal_interval
      last_terminal_print := now
      log_to_file := log_to_file }
  (st, PerformanceMonitor._init_log_file fsOk st)

/-- PerformanceMonitor.get_metrics: the metrics dictionary, starting from
all-zero defaults and filling each statistic only when its window is
nonempty. -/
def PerformanceMonitor.get_metrics (now : ℚ) (st : PerformanceMonitor) : Metrics :=
  let m0 : Metrics :=
    { fps := 0, avg_latency_ms := 0, min_latency_ms := 0,
      max_latency_ms := 0, memory_mb := 0, timestamp := now }
  let m1 :=
    if 0 < st.frame_times.data.length then
      let avg_frame_time := pySum st.frame_times.data / (st.frame_times.data.length : ℚ)
      { m0 with fps := if 0 < avg_frame_time then 1 / avg_frame_time else 0 }
    else m0
  let m2 :=
    if 0 < st.latencies.data.length then
      { m1 with
          avg_latency_ms := pySum st.latencies.data / (st.latencies.data.length : ℚ)
          min_latency_ms := pyMin st.latencies.data
          max_latency_ms := pyMax st.latencies.data }
    else m1
  if 0 < st.memory_samples.data.length then
    { m2 with
        memory_mb := pySum st.memory_samples.data / (st.memory_samples.data.length : ℚ) }
  else m2

/-- PerformanceMonitor._print_to_terminal: reads a metrics snapshot and
prints it as one terminal report. -/
def PerformanceMonitor._print_to_terminal (now : ℚ) (st : PerformanceMonitor) : List Event :=
  [Event.terminalPrint (PerformanceMonitor.get_metrics now st)]

/-- PerformanceMonitor._log_to_csv: reads a metrics snapshot and appends one
CSV record, catching any exception of the file write and printing an error
instead. -/
def PerformanceMonitor._log_to_csv (fsOk : Bool) (now : ℚ) (st : PerformanceMonitor) : List Event :=
  match pyFileWrite fsOk with
  | Except.ok _ => [Event.csvWrite (PerformanceMonitor.get_metrics now st)]
  | Except.error _ => [Event.ioWarning]

/-- PerformanceMonitor.start_frame: records the current instant. -/
def PerformanceMonitor.start_frame (now : ℚ) (st : PerformanceMonitor) : PerformanceMonitor :=
  { st with frame_start_time := some now }

/-- PerformanceMonitor.end_frame: no-op when frame_start_time is unset;
otherwise pushes latency, the inter-frame interval (only when
last_frame_time is set), updates last_frame_time, pushes a memory sample,
and then runs the rate-limited reporter. -/
def PerformanceMonitor.end_frame (fsOk : Bool) (current_time rss : ℚ)
    (st : PerformanceMonitor) : PerformanceMonitor × List Event :=
  match st.frame_start_time with
  | none => (st, [])
  | some fs =>
    let latency := (current_time - fs) * 1000
    let st := { st with latencies := st.latencies.append latency }
    let st :=
      match st.last_frame_time with
      | some lf => { st with frame_times := st.frame_times.append (current_time - lf) }
      | none => st
    let st := { st with last_frame_time := some current_time }
    let st := { st with memory_samples := st.memory_samples.append (rss / 1024 / 1024) }
    if st.terminal_interval ≤ current_time - st.last_terminal_print then
      let evs := PerformanceMonitor._print_to_terminal current_time st
      let st := { st with last_terminal_print := current_time }
      if st.log_to_file then
        (st, evs ++ PerformanceMonitor._log_to_csv fsOk current_time st)
      else (st, evs)
    else (st, [])

/-- PerformanceMonitor.reset: clears the three windows, unsets both timers,
and prints the reset notice. -/
def PerformanceMonitor.reset (st : PerformanceMonitor) : PerformanceMonitor × List Event :=
  ({ st with
      frame_times := st.frame_times.clear
      latencies := st.latencies.clear
      memory_samples := st.memory_samples.clear
      last_frame_time := none
      frame_start_time := none },
   [Event.resetNotice])

/-- The operation surface of a wrapped frame-processing unit (an exercise
tracker): process_frame and reset acting on a tracker state, plus the
remaining attribute surface read through getattr. -/
structure Tracker (σ α β γ : Type) where
  process_frame : σ → α → σ × β
  reset : σ → σ
  getattr : String → γ

/-- TrackerWithMonitoring: holds the wrapped tracker and a
PerformanceMonitor. -/
structure TrackerWithMonitoring (σ α β γ : Type) where
  tracker_methods : Tracker σ α β γ
  tracker : σ
  perf_monitor : PerformanceMonitor

/-- TrackerWithMonitoring.process_frame: start_frame, delegate to the
the process_frame of the wrapped tracker, end_frame, return the wrapped result. -/
def TrackerWithMonitoring.process_frame {σ α β γ : Type}
    (w : TrackerWithMonitoring σ α β γ) (frame : α)
    (t_start t_end rss : ℚ) (fsOk : Bool) :
    TrackerWithMonitoring σ α β γ × List Event × β :=
  let pm := PerformanceMonitor.start_frame t_start w.perf_monitor
  let r := w.tracker_methods.process_frame w.tracker frame
  let pe := PerformanceMonitor.end_frame fsOk t_end rss pm
  ({ w with tracker := r.1, perf_monitor := pe.1 }, pe.2, r.2)

/-- TrackerWithMonitoring.reset: resets both the wrapped tracker and the
performance monitor. -/
def TrackerWithMonitoring.reset {σ α β γ : Type}
    (w : TrackerWithMonitoring σ α β γ) :
    TrackerWithMonitoring σ α β γ × List Event :=
  let ts := w.tracker_methods.reset w.tracker
  let pe := PerformanceMonitor.reset w.perf_monitor
  ({ w with tracker := ts, perf_monitor := pe.1 }, pe.2)

/-- Attribute names that TrackerWithMonitoring defines itself (instance
attributes and its two explicit operations); Python only invokes
getattr-forwarding for names not found on the wrapper. -/
def TrackerWithMonitoring.own_attrs : List String :=
  ["tracker", "perf_monitor", "process_frame", "reset"]

/-- Result of an attribute lookup on the wrapper: either one of the
attributes the wrapper itself defines, or a value forwarded from the wrapped tracker. -/
inductive AttrLookup (γ : Type) where
  | own
  | forwarded (v : γ)
deriving DecidableEq

/-- Attribute lookup on TrackerWithMonitoring, with the dunder getattr
forwarding every name the wrapper does not define to the wrapped tracker. -/
def TrackerWithMonitoring.getattr_dispatch {σ α β γ : Type}
    (w : TrackerWithMonitoring σ α β γ) (name : String) : AttrLookup γ :=
  if name ∈ TrackerWithMonitoring.own_attrs then AttrLookup.own
  else AttrLookup.forwarded (w.tracker_methods.getattr name)

/-- The all-zero metrics snapshot taken at a given instant. -/
def emptyMetrics (now : ℚ) : Metrics :=
  { fps := 0, avg_latency_ms := 0, min_latency_ms := 0,
    max_latency_ms := 0, memory_mb := 0, timestamp := now }

/-- Window mean as worded in the spec: 0 on the empty window, otherwise the
sum divided by the length. -/
def meanSpec (l : List ℚ) : ℚ :=
  if l = [] then 0 else l.sum / (l.length : ℚ)

/-- Window minimum as worded in the spec: 0 on the empty window, otherwise
the least element. -/
def minSpec (l : List ℚ) : ℚ :=
  (List.min? l).getD 0

/-- Window maximum as worded in the spec: 0 on the empty window, otherwise
the greatest element. -/
def maxSpec (l : List ℚ) : ℚ :=
  (List.max? l).getD 0

/-- The metrics snapshot as worded in the spec: fps is the reciprocal of
the mean frame interval when that mean is positive and 0 otherwise, the
latency statistics are the mean, minimum and maximum of the latency window,
memory_mb is the mean of the memory window, and the timestamp is the
capture instant. -/
def snapshotSpec (now : ℚ) (st : PerformanceMonitor) : Metrics :=
  { fps :=
      if 0 < meanSpec st.frame_times.data then 1 / meanSpec st.frame_times.data else 0
    avg_latency_ms := meanSpec st.latencies.data
    min_latency_ms := minSpec st.latencies.data
    max_latency_ms := maxSpec st.latencies.data
    memory_mb := meanSpec st.memory_samples.data
    timestamp := now }

/-- Modelled from the spec: the flag-gated monitor variant of the repository is
not under src/ (src/performance_monitor.py is the full-featured variant
with no enabled flag).  Per the spec, a process-wide enabled flag is fixed
at construction; when it is false no windows are allocated, so the inner
monitor state is present only when enabled. -/
structure GatedMonitor where
  enabled : Bool
  inner : Option PerformanceMonitor
deriving Repr, DecidableEq

/-- Modelled from the spec: gated construction; when disabled, no windows
and no log file are allocated and nothing is emitted. -/
def GatedMonitor.init (enabled : Bool) (window_size : Nat) (log_to_file : Bool)
    (terminal_interval : ℚ) (now : ℚ) (fsOk : Bool) : GatedMonitor × List Event :=
  if enabled then
    let r := PerformanceMonitor.init window_size log_to_file terminal_interval now fsOk
    (⟨true, some r.1⟩, r.2)
  else (⟨false, none⟩, [])

/-- Modelled from the spec: gated start_frame, a no-op when disabled. -/
def GatedMonitor.start_frame (now : ℚ) (g : GatedMonitor) : GatedMonitor :=
  if g.enabled then ⟨g.enabled, g.inner.map (PerformanceMonitor.start_frame now)⟩
  else g

/-- Modelled from the spec: gated end_frame, a no-op when disabled. -/
def GatedMonitor.end_frame (fsOk : Bool) (t rss : ℚ) (g : GatedMonitor) :
    GatedMonitor × List Event :=
  if g.enabled then
    match g.inner with
    | some st =>
      let r := PerformanceMonitor.end_frame fsOk t rss st
      (⟨g.enabled, some r.1⟩, r.2)
    | none => (g, [])
  else (g, [])

/-- Modelled from the spec: gated get_metrics, returning the empty snapshot
when disabled. -/
def GatedMonitor.get_metrics (now : ℚ) (g : GatedMonitor) : Metrics :=
  if g.enabled then
    match g.inner with
    | some st => PerformanceMonitor.get_metrics now st
    | none => emptyMetrics now
  else emptyMetrics now

/-- Modelled from the spec: gated reset, a no-op when disabled. -/
def GatedMonitor.reset (g : GatedMonitor) : GatedMonitor × List Event :=
  if g.enabled then
    match g.inner with
    | some st =>
      let r := PerformanceMonitor.reset st
      (⟨g.enabled, some r.1⟩, r.2)
    | none => (g, [])
  else (g, [])

/-- Modelled from the spec: the monitoring decorator over the gated
monitor; when disabled it bypasses the aggregator entirely and calls the
wrapped unit directly. -/
def GatedMonitor.process_frame_decorated {σ α β : Type}
    (proc : σ → α → σ × β) (ts : σ) (frame : α)
    (t_start t_end rss : ℚ) (fsOk : Bool) (g : GatedMonitor) :
    (σ × GatedMonitor × List Event) × β :=
  if g.enabled then
    let g1 := GatedMonitor.start_frame t_start g
    let r := proc ts frame
    let ge := GatedMonitor.end_frame fsOk t_end rss g1
    ((r.1, ge.1, ge.2), r.2)
  else
    let r := proc ts frame
    ((r.1, g, []), r.2)

/-- True exactly on terminal-print events. -/
def Event.isTerminal : Event → Bool
  | Event.terminalPrint _ => true
  | _ => false

/-- True exactly on successful CSV-append events. -/
def Event.isCsv : Event → Bool
  | Event.csvWrite _ => true
  | _ => false

/-- True exactly on I/O warning events. -/
def Event.isWarning : Event → Bool
  | Event.ioWarning => true
  | _ => false

/-- Runs a sequence of end_frame calls, each given by a (time, rss) pair,
collecting all emitted events in order. -/
def runFrames (fsOk : Bool) (calls : List (ℚ × ℚ)) (st : PerformanceMonitor) :
    PerformanceMonitor × List Event :=
  match calls with
  | [] => (st, [])
  | c :: rest =>
    let r1 := PerformanceMonitor.end_frame fsOk c.1 c.2 st
    let r2 := runFrames fsOk rest r1.1
    (r2.1, r1.2 ++ r2.2)

/-- Example state used by the witnesses: the monitor as constructed. -/
def sampleState : PerformanceMonitor :=
  (PerformanceMonitor.init 30 true 2 0 true).1

/-- Example state whose latency window holds the samples 10, 20, 30. -/
def latState : PerformanceMonitor :=
  { sampleState with latencies := ⟨30, [10, 20, 30]⟩ }

/-- Example state in which one start_frame has been recorded. -/
def startedState : PerformanceMonitor :=
  PerformanceMonitor.start_frame 1 sampleState

/-- Example wrapped tracker used by the witnesses. -/
def idTracker : Tracker Nat Nat Nat Nat :=
  { process_frame := fun s a => (s + 1, a)
    reset := fun _ => 0
    getattr := fun _ => 7 }

/-- Example monitoring wrapper used by the witnesses. -/
def sampleWrapper : TrackerWithMonitoring Nat Nat Nat Nat :=
  { tracker_methods := idTracker
    tracker := 0
    perf_monitor := sampleState }

lemma end_frame_none (fsOk : Bool) (t rss : ℚ) (st : PerformanceMonitor)
    (h : st.frame_start_time = none) :
    PerformanceMonitor.end_frame fsOk t rss st = (st, []) := by
  unfold PerformanceMonitor.end_frame
  rw [h]

lemma end_frame_state (fsOk : Bool) (t rss : ℚ) (st : PerformanceMonitor) (s : ℚ)
    (h : st.frame_start_time = some s) :
    (PerformanceMonitor.end_frame fsOk t rss st).1 =
      { st with
          latencies := st.latencies.append ((t - s) * 1000)
          frame_times :=
            match st.last_frame_time with
            | some lf => st.frame_times.append (t - lf)
            | none => st.frame_times
          last_frame_time := some t
          memory_samples := st.memory_samples.append (rss / 1024 / 1024)
          last_terminal_print :=
            if st.terminal_interval ≤ t - st.last_terminal_print then t
            else st.last_terminal_print } := by
  unfold PerformanceMonitor.end_frame
  rw [h]
  cases hl : st.last_frame_time <;>
    simp only [hl] <;> split <;> (try split) <;> rfl

lemma end_frame_quiet (fsOk : Bool) (t rss : ℚ) (st : PerformanceMonitor)
    (h : ¬ st.terminal_interval ≤ t - st.last_terminal_print) :
    (PerformanceMonitor.end_frame fsOk t rss st).2 = []
      ∧ (PerformanceMonitor.end_frame fsOk t rss st).1.last_terminal_print
          = st.last_terminal_print
      ∧ (PerformanceMonitor.end_frame fsOk t rss st).1.terminal_interval
          = st.terminal_interval := by
  cases hf : st.frame_start_time with
  | none => rw [end_frame_none fsOk t rss st hf]; exact ⟨rfl, rfl, rfl⟩
  | some s =>
    unfold PerformanceMonitor.end_frame
    rw [hf]
    cases hl : st.last_frame_time <;> simp only [hl] <;>
      · rw [if_neg h]
        exact ⟨rfl, rfl, rfl⟩

lemma end_frame_interval_eq (fsOk : Bool) (t rss : ℚ) (st : PerformanceMonitor) :
    (PerformanceMonitor.end_frame fsOk t rss st).1.terminal_interval
      = st.terminal_interval := by
  cases hf : st.frame_start_time with
  | none => rw [end_frame_none fsOk t rss st hf]
  | some s => rw [end_frame_state fsOk t rss st s hf]

lemma end_frame_fired (fsOk : Bool) (t rss : ℚ) (st : PerformanceMonitor) (s : ℚ)
    (h : st.frame_start_time = some s)
    (h2 : st.terminal_interval ≤ t - st.last_terminal_print) :
    (PerformanceMonitor.end_frame fsOk t rss st).2.countP Event.isTerminal = 1
      ∧ (PerformanceMonitor.end_frame fsOk t rss st).2.countP Event.isCsv ≤ 1
      ∧ (PerformanceMonitor.end_frame fsOk t rss st).1.last_terminal_print = t := by
  unfold PerformanceMonitor.end_frame
  rw [h]
  cases hl : st.last_frame_time <;>
    simp only [hl] <;>
    · rw [if_pos h2]
      cases hlog : st.log_to_file <;> cases fsOk <;>
        simp [hlog, PerformanceMonitor._log_to_csv, pyFileWrite,
          PerformanceMonitor._print_to_terminal, Event.isTerminal, Event.isCsv,
          List.countP_cons]

lemma end_frame_counts (fsOk : Bool) (t rss : ℚ) (st : PerformanceMonitor) :
    (PerformanceMonitor.end_frame fsOk t rss st).2.countP Event.isTerminal ≤ 1
      ∧ (PerformanceMonitor.end_frame fsOk t rss st).2.countP Event.isCsv ≤ 1 := by
  cases hf : st.frame_start_time with
  | none => rw [end_frame_none fsOk t rss st hf]; exact ⟨by simp, by simp⟩
  | some s =>
    by_cases h2 : st.terminal_interval ≤ t - st.last_terminal_print
    · have := end_frame_fired fsOk t rss st s hf h2
      exact ⟨le_of_eq this.1, this.2.1⟩
    · have := end_frame_quiet fsOk t rss st h2
      rw [this.1]
      exact ⟨by simp, by simp⟩

lemma runFrames_quiet (fsOk : Bool) :
    ∀ (calls : List (ℚ × ℚ)) (st : PerformanceMonitor),
    (∀ c ∈ calls, c.1 - st.last_terminal_print < st.terminal_interval) →
    (runFrames fsOk calls st).2 = []
      ∧ (runFrames fsOk calls st).1.last_terminal_print = st.last_terminal_print
      ∧ (runFrames fsOk calls st).1.terminal_interval = st.terminal_interval := by
  intro calls
  induction calls with
  | nil => intro st _; exact ⟨rfl, rfl, rfl⟩
  | cons c rest ih =>
    intro st h
    have hc := h c (List.mem_cons_self _ _)
    have hq := end_frame_quiet fsOk c.1 c.2 st (not_le.mpr hc)
    have hrest := ih (PerformanceMonitor.end_frame fsOk c.1 c.2 st).1
      (by
        intro c' hc'
        rw [hq.2.1, hq.2.2]
        exact h c' (List.mem_cons_of_mem _ hc'))
    refine ⟨?_, ?_, ?_⟩
    · show ((PerformanceMonitor.end_frame fsOk c.1 c.2 st).2
        ++ (runFrames fsOk rest (PerformanceMonitor.end_frame fsOk c.1 c.2 st).1).2) = []
      rw [hq.1, hrest.1]
      rfl
    · show (runFrames fsOk rest (PerformanceMonitor.end_frame fsOk c.1 c.2 st).1).1.last_terminal_print
        = st.last_terminal_print
      rw [hrest.2.1, hq.2.1]
    · show (runFrames fsOk rest (PerformanceMonitor.end_frame fsOk c.1 c.2 st).1).1.terminal_interval
        = st.terminal_interval
      rw [hrest.2.2, hq.2.2]

lemma runFrames_burst (fsOk : Bool) :
    ∀ (calls : List (ℚ × ℚ)) (st : PerformanceMonitor),
    (∀ c ∈ calls, ∀ c' ∈ calls, c'.1 - c.1 < st.terminal_interval) →
    (runFrames fsOk calls st).2.countP Event.isTerminal ≤ 1
      ∧ (runFrames fsOk calls st).2.countP Event.isCsv ≤ 1 := by
  intro calls
  induction calls with
  | nil => intro st _; exact ⟨by simp [runFrames], by simp [runFrames]⟩
  | cons c rest ih =>
    intro st h
    have hev : (runFrames fsOk (c :: rest) st).2
        = (PerformanceMonitor.end_frame fsOk c.1 c.2 st).2
          ++ (runFrames fsOk rest (PerformanceMonitor.end_frame fsOk c.1 c.2 st).1).2 := rfl
    cases hf : st.frame_start_time with
    | none =>
      have hno := end_frame_none fsOk c.1 c.2 st hf
      rw [hev, hno]
      have := ih st (fun c2 h2 c3 h3 =>
        h c2 (List.mem_cons_of_mem _ h2) c3 (List.mem_cons_of_mem _ h3))
      simpa using this
    | some s =>
      by_cases h2 : st.terminal_interval ≤ c.1 - st.last_terminal_print
      · have hfl := end_frame_fired fsOk c.1 c.2 st s hf h2
        have hrest := runFrames_quiet fsOk rest (PerformanceMonitor.end_frame fsOk c.1 c.2 st).1
          (by
            intro c' hc'
            rw [hfl.2.2, end_frame_interval_eq]
            exact h c (List.mem_cons_self _ _) c' (List.mem_cons_of_mem _ hc'))
        rw [hev, hrest.1, List.append_nil]
        exact ⟨le_of_eq hfl.1, hfl.2.1⟩
      · have hq := end_frame_quiet fsOk c.1 c.2 st h2
        rw [hev, hq.1, List.nil_append]
        have := ih (PerformanceMonitor.end_frame fsOk c.1 c.2 st).1
          (by
            intro c2 hc2 c3 hc3
            rw [end_frame_interval_eq]
            exact h c2 (List.mem_cons_of_mem _ hc2) c3 (List.mem_cons_of_mem _ hc3))
        exact this

lemma end_frame_together (t rss : ℚ) (st : PerformanceMonitor)
    (h : st.log_to_file = true) :
    (PerformanceMonitor.end_frame true t rss st).2.countP Event.isTerminal
      = (PerformanceMonitor.end_frame true t rss st).2.countP Event.isCsv := by
  cases hf : st.frame_start_time with
  | none => rw [end_frame_none true t rss st hf]; rfl
  | some s =>
    unfold PerformanceMonitor.end_frame
    rw [hf]
    cases hl : st.last_frame_time <;>
      simp only [hl] <;>
      · split
        · simp [h, PerformanceMonitor._log_to_csv, pyFileWrite,
            PerformanceMonitor._print_to_terminal, Event.isTerminal, Event.isCsv]
        · rfl

lemma deque_foldl_data (C : Nat) :
    ∀ (xs l : List ℚ), l.length ≤ C →
    (xs.foldl Deque.append ⟨C, l⟩).data
      = (l ++ xs).drop (l.length + xs.length - C) := by
  intro xs
  induction xs with
  | nil =>
    intro l h
    simp [Nat.sub_eq_zero_of_le h]
  | cons x xs ih =>
    intro l h
    have hstep : Deque.append ⟨C, l⟩ x
        = ⟨C, (l ++ [x]).drop (l.length + 1 - C)⟩ := rfl
    have hlen : ((l ++ [x]).drop (l.length + 1 - C)).length
        = l.length + 1 - (l.length + 1 - C) := by
      rw [List.length_drop, List.length_append, List.length_singleton]
    have hle : ((l ++ [x]).drop (l.length + 1 - C)).length ≤ C := by
      rw [hlen]; omega
    have hrec := ih ((l ++ [x]).drop (l.length + 1 - C)) hle
    show ((x :: xs).foldl Deque.append ⟨C, l⟩).data = _
    rw [List.foldl_cons, hstep, hrec]
    have hdist : ((l ++ [x]) ++ xs).drop (l.length + 1 - C)
        = (l ++ [x]).drop (l.length + 1 - C) ++ xs := by
      rw [List.drop_append_eq_append_drop]
      have hz : l.length + 1 - C - (l ++ [x]).length = 0 := by
        rw [List.length_append, List.length_singleton]; omega
      rw [hz, List.drop_zero]
    rw [← hdist, List.drop_drop]
    have harr : (l ++ [x]) ++ xs = l ++ x :: xs := by
      rw [List.append_assoc, List.singleton_append]
    rw [harr]
    congr 1
    rw [hlen]
    simp only [List.length_cons]
    omega


lemma pyMin_eq_minSpec (l : List ℚ) : pyMin l = minSpec l := by
  cases l <;> rfl

lemma pyMax_eq_maxSpec (l : List ℚ) : pyMax l = maxSpec l := by
  cases l <;> rfl

lemma get_metrics_eq_snapshotSpec (now : ℚ) (st : PerformanceMonitor) :
    PerformanceMonitor.get_metrics now st = snapshotSpec now st := by
  unfold PerformanceMonitor.get_metrics snapshotSpec
  rw [pyMin_eq_minSpec, pyMax_eq_maxSpec]
  cases hft : st.frame_times.data <;>
    cases hlat : st.latencies.data <;>
      cases hmem : st.memory_samples.data <;>
        simp [meanSpec, minSpec, maxSpec, pySum]

lemma deque_append_le (d : Deque) (x : ℚ) : (d.append x).data.length ≤ d.maxlen := by
  show ((d.data ++ [x]).drop (d.data.length + 1 - d.maxlen)).length ≤ d.maxlen
  rw [List.length_drop, List.length_append, List.length_singleton]
  omega

lemma deque_append_maxlen (d : Deque) (x : ℚ) : (d.append x).maxlen = d.maxlen := rfl

lemma deque_foldl_length (C : Nat) (xs : List ℚ) :
    (xs.foldl Deque.append (Deque.empty C)).data.length = min xs.length C := by
  have h := deque_foldl_data C xs [] (by simp)
  show (xs.foldl Deque.append ⟨C, []⟩).data.length = min xs.length C
  rw [h, List.length_drop]
  simp only [List.nil_append, List.length_nil, Nat.zero_add]
  omega

lemma end_frame_state_fsOk (fsOk : Bool) (t rss : ℚ) (st : PerformanceMonitor) :
    (PerformanceMonitor.end_frame fsOk t rss st).1
      = (PerformanceMonitor.end_frame true t rss st).1 := by
  cases hf : st.frame_start_time with
  | none => rw [end_frame_none fsOk t rss st hf, end_frame_none true t rss st hf]
  | some s => rw [end_frame_state fsOk t rss st s hf, end_frame_state true t rss st s hf]

lemma end_frame_warning_le (t rss : ℚ) (st : PerformanceMonitor) :
    (PerformanceMonitor.end_frame false t rss st).2.countP Event.isWarning ≤ 1 := by
  cases hf : st.frame_start_time with
  | none => rw [end_frame_none false t rss st hf]; simp
  | some s =>
    unfold PerformanceMonitor.end_frame
    rw [hf]
    cases hl : st.last_frame_time <;>
      simp only [hl] <;>
      · split
        · cases hlog : st.log_to_file <;>
            simp [hlog, PerformanceMonitor._log_to_csv, pyFileWrite,
              PerformanceMonitor._print_to_terminal, Event.isWarning]
        · simp

/-- C1: for every state of the monitor, get_metrics returns exactly the
snapshot the spec describes: fps is 1 over the mean of the frame-interval
window when that mean is positive and 0 otherwise (in particular 0 when the
interval window is empty), avg/min/max latency are exactly the mean,
minimum and maximum of the latency window (so latency samples 10, 20, 30
yield 20, 10, 30), memory_mb is the mean of the memory window, and each of
these fields is 0 when its window is empty. -/
theorem claim_c1_get_metrics :
    (∀ (now : ℚ) (st : PerformanceMonitor),
        PerformanceMonitor.get_metrics now st = snapshotSpec now st)
  ∧ (∀ (now : ℚ) (st : PerformanceMonitor), st.latencies.data = [10, 20, 30] →
        (PerformanceMonitor.get_metrics now st).avg_latency_ms = 20
      ∧ (PerformanceMonitor.get_metrics now st).min_latency_ms = 10
      ∧ (PerformanceMonitor.get_metrics now st).max_latency_ms = 30)
  ∧ (∀ (now : ℚ) (st : PerformanceMonitor), st.frame_times.data = [] →
        (PerformanceMonitor.get_metrics now st).fps = 0)
  ∧ (∀ (now : ℚ) (st : PerformanceMonitor), st.latencies.data = [] →
        (PerformanceMonitor.get_metrics now st).avg_latency_ms = 0
      ∧ (PerformanceMonitor.get_metrics now st).min_latency_ms = 0
      ∧ (PerformanceMonitor.get_metrics now st).max_latency_ms = 0)
  ∧ (∀ (now : ℚ) (st : PerformanceMonitor), st.memory_samples.data = [] →
        (PerformanceMonitor.get_metrics now st).memory_mb = 0) := by
  refine ⟨get_metrics_eq_snapshotSpec, ?_, ?_, ?_, ?_⟩
  · intro now st h
    rw [get_metrics_eq_snapshotSpec]
    refine ⟨?_, ?_, ?_⟩
    · show meanSpec st.latencies.data = 20
      rw [h]
      simp only [meanSpec, List.sum_cons, List.sum_nil, List.length_cons,
        List.length_nil, reduceCtorEq, if_false]
      norm_num
    · show minSpec st.latencies.data = 10
      rw [h]
      decide
    · show maxSpec st.latencies.data = 30
      rw [h]
      decide
  · intro now st h
    rw [get_metrics_eq_snapshotSpec]
    show (if 0 < meanSpec st.frame_times.data then 1 / meanSpec st.frame_times.data else 0) = 0
    rw [h]
    rfl
  · intro now st h
    rw [get_metrics_eq_snapshotSpec]
    refine ⟨?_, ?_, ?_⟩
    · show meanSpec st.latencies.data = 0
      rw [h]; rfl
    · show minSpec st.latencies.data = 0
      rw [h]; rfl
    · show maxSpec st.latencies.data = 0
      rw [h]; rfl
  · intro now st h
    rw [get_metrics_eq_snapshotSpec]
    show meanSpec st.memory_samples.data = 0
    rw [h]; rfl

/-- Witness for C1 at a concrete state whose latency window holds 10, 20,
30 and whose frame-interval window is empty. -/
theorem claim_c1_get_metrics_witness :
    (PerformanceMonitor.get_metrics 0 latState).avg_latency_ms = 20
  ∧ (PerformanceMonitor.get_metrics 0 latState).min_latency_ms = 10
  ∧ (PerformanceMonitor.get_metrics 0 latState).max_latency_ms = 30
  ∧ (PerformanceMonitor.get_metrics 0 latState).fps = 0 :=
  ⟨(claim_c1_get_metrics.2.1 0 latState rfl).1,
   (claim_c1_get_metrics.2.1 0 latState rfl).2.1,
   (claim_c1_get_metrics.2.1 0 latState rfl).2.2,
   claim_c1_get_metrics.2.2.1 0 latState rfl⟩

/-- C2: after pushing N samples into a fresh sliding window of capacity C
the window holds exactly the most recent min(N, C) samples in insertion
order; length is always at most the capacity, and this bound is preserved
by a push, by end_frame (which pushes into all three windows), and by reset
(which clears them). -/
theorem claim_c2_sliding_window :
    (∀ (C : Nat) (xs : List ℚ),
        (xs.foldl Deque.append (Deque.empty C)).data = xs.drop (xs.length - C)
      ∧ (xs.foldl Deque.append (Deque.empty C)).data.length = min xs.length C)
  ∧ (∀ (d : Deque) (x : ℚ),
        (d.append x).data.length ≤ d.maxlen ∧ (d.append x).maxlen = d.maxlen)
  ∧ (∀ (st : PerformanceMonitor) (fsOk : Bool) (t rss : ℚ),
        st.frame_times.data.length ≤ st.frame_times.maxlen →
        st.latencies.data.length ≤ st.latencies.maxlen →
        st.memory_samples.data.length ≤ st.memory_samples.maxlen →
        ((PerformanceMonitor.end_frame fsOk t rss st).1.frame_times.data.length
            ≤ (PerformanceMonitor.end_frame fsOk t rss st).1.frame_times.maxlen
        ∧ (PerformanceMonitor.end_frame fsOk t rss st).1.latencies.data.length
            ≤ (PerformanceMonitor.end_frame fsOk t rss st).1.latencies.maxlen
        ∧ (PerformanceMonitor.end_frame fsOk t rss st).1.memory_samples.data.length
            ≤ (PerformanceMonitor.end_frame fsOk t rss st).1.memory_samples.maxlen))
  ∧ (∀ (st : PerformanceMonitor),
        (PerformanceMonitor.reset st).1.frame_times.data.length = 0
      ∧ (PerformanceMonitor.reset st).1.latencies.data.length = 0
      ∧ (PerformanceMonitor.reset st).1.memory_samples.data.length = 0) := by
  refine ⟨?_, ?_, ?_, ?_⟩
  · intro C xs
    have h := deque_foldl_data C xs [] (by simp)
    constructor
    · show (xs.foldl Deque.append ⟨C, []⟩).data = xs.drop (xs.length - C)
      rw [h]
      simp only [List.nil_append, List.length_nil, Nat.zero_add]
    · exact deque_foldl_length C xs
  · intro d x
    exact ⟨deque_append_le d x, rfl⟩
  · intro st fsOk t rss h1 h2 h3
    cases hf : st.frame_start_time with
    | none =>
      rw [end_frame_none fsOk t rss st hf]
      exact ⟨h1, h2, h3⟩
    | some s =>
      rw [end_frame_state fsOk t rss st s hf]
      refine ⟨?_, ?_, ?_⟩
      · show (match st.last_frame_time with
            | some lf => st.frame_times.append (t - lf)
            | none => st.frame_times).data.length
          ≤ (match st.last_frame_time with
            | some lf => st.frame_times.append (t - lf)
            | none => st.frame_times).maxlen
        cases st.last_frame_time with
        | none => exact h1
        | some lf => exact deque_append_le st.frame_times (t - lf)
      · exact deque_append_le st.latencies ((t - s) * 1000)
      · exact deque_append_le st.memory_samples (rss / 1024 / 1024)
  · intro st
    exact ⟨rfl, rfl, rfl⟩

/-- Witness for C2 at a concrete state with one start_frame recorded. -/
theorem claim_c2_sliding_window_witness :
    (PerformanceMonitor.end_frame true 5 0 startedState).1.latencies.data.length
      ≤ (PerformanceMonitor.end_frame true 5 0 startedState).1.latencies.maxlen :=
  (claim_c2_sliding_window.2.2.1 startedState true 5 0
    (by decide) (by decide) (by decide)).2.1

/-- C3: when frame_start_time is unset, end_frame is a total no-op: the
state (in particular all three windows and last_frame_time) is unchanged
and nothing is emitted; frame_start_time is unset exactly in the states
reached by construction or by reset. -/
theorem claim_c3_end_frame_guard :
    (∀ (st : PerformanceMonitor) (fsOk : Bool) (t rss : ℚ),
        st.frame_start_time = none →
        PerformanceMonitor.end_frame fsOk t rss st = (st, []))
  ∧ (∀ (ws : Nat) (ltf : Bool) (ti now : ℚ) (fsOk : Bool),
        (PerformanceMonitor.init ws ltf ti now fsOk).1.frame_start_time = none)
  ∧ (∀ (st : PerformanceMonitor),
        (PerformanceMonitor.reset st).1.frame_start_time = none) := by
  refine ⟨?_, ?_, ?_⟩
  · intro st fsOk t rss h
    exact end_frame_none fsOk t rss st h
  · intro ws ltf ti now fsOk
    rfl
  · intro st
    rfl

/-- Witness for C3 at the freshly constructed state. -/
theorem claim_c3_end_frame_guard_witness :
    PerformanceMonitor.end_frame true 5 0 sampleState = (sampleState, []) :=
  claim_c3_end_frame_guard.1 sampleState true 5 0 rfl

/-- C4: end_frame pushes an inter-frame-interval sample only when
last_frame_time is already set, so the frame-interval window is unchanged
whenever last_frame_time is unset; consequently the first effective
end_frame after construction, or after a reset, leaves the frame-interval
window empty and contributes no FPS sample. -/
theorem claim_c4_first_frame :
    (∀ (st : PerformanceMonitor) (fsOk : Bool) (t rss : ℚ),
        st.last_frame_time = none →
        (PerformanceMonitor.end_frame fsOk t rss st).1.frame_times = st.frame_times)
  ∧ (∀ (st : PerformanceMonitor) (fsOk : Bool) (t rss lf s : ℚ),
        st.last_frame_time = some lf → st.frame_start_time = some s →
        (PerformanceMonitor.end_frame fsOk t rss st).1.frame_times
          = st.frame_times.append (t - lf))
  ∧ (∀ (ws : Nat) (ltf : Bool) (ti now0 : ℚ) (fsOk0 : Bool) (t0 : ℚ)
        (fsOk : Bool) (t rss : ℚ),
        (PerformanceMonitor.end_frame fsOk t rss
          (PerformanceMonitor.start_frame t0
            (PerformanceMonitor.init ws ltf ti now0 fsOk0).1)).1.frame_times.data = [])
  ∧ (∀ (st : PerformanceMonitor) (t0 : ℚ) (fsOk : Bool) (t rss : ℚ),
        (PerformanceMonitor.end_frame fsOk t rss
          (PerformanceMonitor.start_frame t0
            (PerformanceMonitor.reset st).1)).1.frame_times.data = []) := by
  have h1 : ∀ (st : PerformanceMonitor) (fsOk : Bool) (t rss : ℚ),
      st.last_frame_time = none →
      (PerformanceMonitor.end_frame fsOk t rss st).1.frame_times = st.frame_times := by
    intro st fsOk t rss h
    cases hf : st.frame_start_time with
    | none => rw [end_frame_none fsOk t rss st hf]
    | some s =>
      rw [end_frame_state fsOk t rss st s hf]
      show (match st.last_frame_time with
          | some lf => st.frame_times.append (t - lf)
          | none => st.frame_times) = st.frame_times
      rw [h]
  refine ⟨h1, ?_, ?_, ?_⟩
  · intro st fsOk t rss lf s hl hs
    rw [end_frame_state fsOk t rss st s hs]
    show (match st.last_frame_time with
        | some lf2 => st.frame_times.append (t - lf2)
        | none => st.frame_times) = st.frame_times.append (t - lf)
    rw [hl]
  · intro ws ltf ti now0 fsOk0 t0 fsOk t rss
    rw [h1 _ fsOk t rss rfl]
    rfl
  · intro st t0 fsOk t rss
    rw [h1 _ fsOk t rss rfl]
    rfl

/-- Witness for C4 at the freshly constructed state, after one
start_frame. -/
theorem claim_c4_first_frame_witness :
    (PerformanceMonitor.end_frame true 5 0 startedState).1.frame_times
      = startedState.frame_times :=
  claim_c4_first_frame.1 startedState true 5 0 rfl

/-- C5: for every sequence of end_frame calls whose times all lie within
one terminal_interval of each other, at most one terminal report and at
most one CSV append are emitted (a burst of N calls produces at most one
report); and terminal printing and log writing are gated by the same rate
limiter: in any single end_frame with file logging enabled they fire
together or neither does. -/
theorem claim_c5_rate_limit :
    (∀ (fsOk : Bool) (calls : List (ℚ × ℚ)) (st : PerformanceMonitor),
        (∀ c ∈ calls, ∀ c' ∈ calls, c'.1 - c.1 < st.terminal_interval) →
        (runFrames fsOk calls st).2.countP Event.isTerminal ≤ 1
      ∧ (runFrames fsOk calls st).2.countP Event.isCsv ≤ 1)
  ∧ (∀ (t rss : ℚ) (st : PerformanceMonitor), st.log_to_file = true →
        (PerformanceMonitor.end_frame true t rss st).2.countP Event.isTerminal
          = (PerformanceMonitor.end_frame true t rss st).2.countP Event.isCsv) :=
  ⟨runFrames_burst, end_frame_together⟩

/-- Witness for C5: a burst of two calls inside one interval, and a single
call with logging enabled. -/
theorem claim_c5_rate_limit_witness :
    ((runFrames true [(10, 0), (11, 0)] startedState).2.countP Event.isTerminal ≤ 1
  ∧ (runFrames true [(10, 0), (11, 0)] startedState).2.countP Event.isCsv ≤ 1)
  ∧ (PerformanceMonitor.end_frame true 5 0 startedState).2.countP Event.isTerminal
      = (PerformanceMonitor.end_frame true 5 0 startedState).2.countP Event.isCsv :=
  ⟨claim_c5_rate_limit.1 true [(10, 0), (11, 0)] startedState
      (by
        intro c hc c' hc'
        fin_cases hc <;> fin_cases hc' <;> norm_num [startedState, sampleState,
          PerformanceMonitor.start_frame, PerformanceMonitor.init]),
   claim_c5_rate_limit.2 5 0 startedState rfl⟩

/-- C6: reset clears all three windows, unsets last_frame_time and
frame_start_time, emits exactly the reset notification and no file event
(so the log sink is untouched), and a get_metrics immediately afterwards
returns the all-zero snapshot. -/
theorem claim_c6_reset :
    ∀ (st : PerformanceMonitor) (now : ℚ),
      (PerformanceMonitor.reset st).1.frame_times.data = []
    ∧ (PerformanceMonitor.reset st).1.latencies.data = []
    ∧ (PerformanceMonitor.reset st).1.memory_samples.data = []
    ∧ (PerformanceMonitor.reset st).1.last_frame_time = none
    ∧ (PerformanceMonitor.reset st).1.frame_start_time = none
    ∧ (PerformanceMonitor.reset st).2 = [Event.resetNotice]
    ∧ (∀ e ∈ (PerformanceMonitor.reset st).2, e = Event.resetNotice)
    ∧ PerformanceMonitor.get_metrics now (PerformanceMonitor.reset st).1
        = emptyMetrics now := by
  intro st now
  refine ⟨rfl, rfl, rfl, rfl, rfl, rfl, ?_, ?_⟩
  · intro e he
    exact List.mem_singleton.mp he
  · rw [get_metrics_eq_snapshotSpec]
    rfl

/-- C7: an I/O failure while creating or appending to the log file is
caught inside the monitor and surfaces as at most one terminal warning:
the raw file write does raise, _log_to_csv and _init_log_file turn that
into a single warning event, and the monitor state produced by end_frame
and by construction is identical to the fault-free one, so no error
reaches the caller and monitoring continues. -/
theorem claim_c7_io_failure :
    pyFileWrite false = Except.error "disk fault"
  ∧ (∀ (st : PerformanceMonitor) (fsOk : Bool) (t rss : ℚ),
        (PerformanceMonitor.end_frame fsOk t rss st).1
          = (PerformanceMonitor.end_frame true t rss st).1)
  ∧ (∀ (st : PerformanceMonitor) (t rss : ℚ),
        (PerformanceMonitor.end_frame false t rss st).2.countP Event.isWarning ≤ 1)
  ∧ (∀ (now : ℚ) (st : PerformanceMonitor),
        PerformanceMonitor._log_to_csv false now st = [Event.ioWarning])
  ∧ (∀ (st : PerformanceMonitor), st.log_to_file = true →
        PerformanceMonitor._init_log_file false st = [Event.ioWarning])
  ∧ (∀ (ws : Nat) (ltf : Bool) (ti now : ℚ),
        (PerformanceMonitor.init ws ltf ti now false).1
          = (PerformanceMonitor.init ws ltf ti now true).1) := by
  refine ⟨rfl, ?_, ?_, ?_, ?_, ?_⟩
  · intro st fsOk t rss
    exact end_frame_state_fsOk fsOk t rss st
  · intro st t rss
    exact end_frame_warning_le t rss st
  · intro now st
    rfl
  · intro st h
    unfold PerformanceMonitor._init_log_file
    rw [h]
    rfl
  · intro ws ltf ti now
    rfl

/-- Witness for C7 at the freshly constructed state (which has file
logging enabled). -/
theorem claim_c7_io_failure_witness :
    PerformanceMonitor._init_log_file false sampleState = [Event.ioWarning] :=
  claim_c7_io_failure.2.2.2.2.1 sampleState rfl

/-- C8: with the process-wide enabled flag false, construction allocates
no windows and touches no file, start_frame, end_frame and reset are
no-ops that emit nothing, get_metrics returns the empty snapshot, and the
monitoring decorator bypasses the aggregator so its process_frame result
is identical to calling the wrapped unit directly. -/
theorem claim_c8_disabled :
    (∀ (ws : Nat) (ltf : Bool) (ti now : ℚ) (fsOk : Bool),
        GatedMonitor.init false ws ltf ti now fsOk = (⟨false, none⟩, []))
  ∧ (∀ (o : Option PerformanceMonitor) (now : ℚ),
        GatedMonitor.start_frame now ⟨false, o⟩ = ⟨false, o⟩)
  ∧ (∀ (o : Option PerformanceMonitor) (fsOk : Bool) (t rss : ℚ),
        GatedMonitor.end_frame fsOk t rss ⟨false, o⟩ = (⟨false, o⟩, []))
  ∧ (∀ (o : Option PerformanceMonitor) (now : ℚ),
        GatedMonitor.get_metrics now ⟨false, o⟩ = emptyMetrics now)
  ∧ (∀ (o : Option PerformanceMonitor),
        GatedMonitor.reset ⟨false, o⟩ = (⟨false, o⟩, []))
  ∧ (∀ (σ α β : Type) (proc : σ → α → σ × β) (ts : σ) (frame : α)
        (t1 t2 rss : ℚ) (fsOk : Bool) (o : Option PerformanceMonitor),
        GatedMonitor.process_frame_decorated proc ts frame t1 t2 rss fsOk ⟨false, o⟩
          = (((proc ts frame).1, ⟨false, o⟩, []), (proc ts frame).2)) := by
  refine ⟨fun ws ltf ti now fsOk => rfl, fun o now => rfl, fun o fsOk t rss => rfl,
    fun o now => rfl, fun o => rfl, ?_⟩
  intro σ α β proc ts frame t1 t2 rss fsOk o
  rfl

/-- C9: process_frame on the decorator delegates to process_frame on the
wrapped unit between start_frame and end_frame and returns the wrapped
result unchanged; its reset resets both the wrapped unit and the monitor;
and every attribute name the wrapper does not define itself is forwarded
unmodified to the wrapped unit. -/
theorem claim_c9_decorator :
    (∀ (σ α β γ : Type) (w : TrackerWithMonitoring σ α β γ) (frame : α)
        (t1 t2 rss : ℚ) (fsOk : Bool),
        (TrackerWithMonitoring.process_frame w frame t1 t2 rss fsOk).2.2
          = (w.tracker_methods.process_frame w.tracker frame).2
      ∧ (TrackerWithMonitoring.process_frame w frame t1 t2 rss fsOk).1.tracker
          = (w.tracker_methods.process_frame w.tracker frame).1
      ∧ (TrackerWithMonitoring.process_frame w frame t1 t2 rss fsOk).1.perf_monitor
          = (PerformanceMonitor.end_frame fsOk t2 rss
              (PerformanceMonitor.start_frame t1 w.perf_monitor)).1
      ∧ (TrackerWithMonitoring.process_frame w frame t1 t2 rss fsOk).2.1
          = (PerformanceMonitor.end_frame fsOk t2 rss
              (PerformanceMonitor.start_frame t1 w.perf_monitor)).2)
  ∧ (∀ (σ α β γ : Type) (w : TrackerWithMonitoring σ α β γ),
        (TrackerWithMonitoring.reset w).1.tracker = w.tracker_methods.reset w.tracker
      ∧ (TrackerWithMonitoring.reset w).1.perf_monitor
          = (PerformanceMonitor.reset w.perf_monitor).1)
  ∧ (∀ (σ α β γ : Type) (w : TrackerWithMonitoring σ α β γ) (name : String),
        name ∉ TrackerWithMonitoring.own_attrs →
        TrackerWithMonitoring.getattr_dispatch w name
          = AttrLookup.forwarded (w.tracker_methods.getattr name)) := by
  refine ⟨?_, ?_, ?_⟩
  · intro σ α β γ w frame t1 t2 rss fsOk
    exact ⟨rfl, rfl, rfl, rfl⟩
  · intro σ α β γ w
    exact ⟨rfl, rfl⟩
  · intro σ α β γ w name h
    unfold TrackerWithMonitoring.getattr_dispatch
    rw [if_neg h]

/-- Witness for C9: an attribute name the wrapper does not define is
forwarded to the wrapped tracker. -/
theorem claim_c9_decorator_witness :
    TrackerWithMonitoring.getattr_dispatch sampleWrapper "update_angle"
      = AttrLookup.forwarded 7 :=
  claim_c9_decorator.2.2 Nat Nat Nat Nat sampleWrapper "update_angle" (by decide)

/-- C10: end_frame never clears frame_start_time, so once a start_frame
has been recorded every later end_frame (including a second one with no
intervening start_frame) pushes a latency sample measured against that
same start instant, together with a fresh interval and memory sample; the
no-op guard applies only while frame_start_time is unset. -/
theorem claim_c10_second_end_frame :
    (∀ (st : PerformanceMonitor) (fsOk : Bool) (t rss : ℚ),
        (PerformanceMonitor.end_frame fsOk t rss st).1.frame_start_time
          = st.frame_start_time)
  ∧ (∀ (st : PerformanceMonitor) (s : ℚ) (fsOk : Bool) (t1 rss1 t2 rss2 : ℚ),
        st.frame_start_time = some s →
        (PerformanceMonitor.end_frame fsOk t1 rss1 st).1.latencies
            = st.latencies.append ((t1 - s) * 1000)
      ∧ (PerformanceMonitor.end_frame fsOk t2 rss2
            (PerformanceMonitor.end_frame fsOk t1 rss1 st).1).1.latencies
          = (PerformanceMonitor.end_frame fsOk t1 rss1 st).1.latencies.append
              ((t2 - s) * 1000)
      ∧ (PerformanceMonitor.end_frame fsOk t1 rss1 st).1.last_frame_time = some t1
      ∧ (PerformanceMonitor.end_frame fsOk t2 rss2
            (PerformanceMonitor.end_frame fsOk t1 rss1 st).1).1.frame_times
          = (PerformanceMonitor.end_frame fsOk t1 rss1 st).1.frame_times.append (t2 - t1)
      ∧ (PerformanceMonitor.end_frame fsOk t2 rss2
            (PerformanceMonitor.end_frame fsOk t1 rss1 st).1).1.memory_samples
          = (PerformanceMonitor.end_frame
              fsOk t1 rss1 st).1.memory_samples.append (rss2 / 1024 / 1024)
      ∧ (PerformanceMonitor.end_frame fsOk t2 rss2
            (PerformanceMonitor.end_frame fsOk t1 rss1 st).1).1.frame_start_time
          = some s) := by
  have hpres : ∀ (st : PerformanceMonitor) (fsOk : Bool) (t rss : ℚ),
      (PerformanceMonitor.end_frame fsOk t rss st).1.frame_start_time
        = st.frame_start_time := by
    intro st fsOk t rss
    cases hf : st.frame_start_time with
    | none => rw [end_frame_none fsOk t rss st hf]; exact hf
    | some s => rw [end_frame_state fsOk t rss st s hf]; exact hf
  refine ⟨hpres, ?_⟩
  intro st s fsOk t1 rss1 t2 rss2 h
  have h1 : (PerformanceMonitor.end_frame fsOk t1 rss1 st).1.frame_start_time = some s := by
    rw [hpres, h]
  have e1 := end_frame_state fsOk t1 rss1 st s h
  have e2 := end_frame_state fsOk t2 rss2
    (PerformanceMonitor.end_frame fsOk t1 rss1 st).1 s h1
  refine ⟨?_, ?_, ?_, ?_, ?_, ?_⟩
  · rw [e1]
  · rw [e2]
  · rw [e1]
  · rw [e2]
    show (match (PerformanceMonitor.end_frame fsOk t1 rss1 st).1.last_frame_time with
        | some lf => (PerformanceMonitor.end_frame fsOk t1 rss1 st).1.frame_times.append (t2 - lf)
        | none => (PerformanceMonitor.end_frame fsOk t1 rss1 st).1.frame_times)
      = (PerformanceMonitor.end_frame fsOk t1 rss1 st).1.frame_times.append (t2 - t1)
    have hlf : (PerformanceMonitor.end_frame fsOk t1 rss1 st).1.last_frame_time
        = some t1 := by rw [e1]
    rw [hlf]
  · rw [e2]
  · rw [e2, h1]

/-- Witness for C10 at a concrete state with one start_frame recorded. -/
theorem claim_c10_second_end_frame_witness :
    (PerformanceMonitor.end_frame true 5 0 startedState).1.latencies
      = startedState.latencies.append ((5 - 1) * 1000) :=
  (claim_c10_second_end_frame.2 startedState 1 true 5 0 6 0 rfl).1
